/-
Verification of the babybuddy Home Assistant integration
(custom_components/babybuddy: client.py and the coordinator in
the package init module).

The Python code is shallowly embedded: HTTP requests become oracles
(functions from URL to an outcome), Python dicts become insertion-ordered
association lists, exceptions become explicit outcome constructors.
-/
import Mathlib

namespace BabyBuddy

/-! ## Constants (from homeassistant.const and the integration's const module) -/

/-- homeassistant.const.HTTP_FORBIDDEN -/
def HTTP_FORBIDDEN : Nat := 403

/-- homeassistant.const.HTTP_CREATED -/
def HTTP_CREATED : Nat := 201

/-- homeassistant.const.HTTP_OK -/
def HTTP_OK : Nat := 200

/-- const.ATTR_COUNT: the JSON key read at `children_list[ATTR_COUNT]`. -/
def ATTR_COUNT : String := "count"

/-- The message of the UpdateFailed raised when the children count is 0. -/
def NO_CHILDREN_MSG : String := "No children found. Please add at least one child."

/-! ## Insertion-ordered association lists, modelling Python dicts.

Python dict semantics: lookup finds the key wherever it is; assignment to an
existing key updates the value in place (keeping its position); assignment to
a fresh key appends it; `setdefault` inserts the default only when the key is
absent. -/

/-- Dict lookup: `m[key]` returning `none` in place of a KeyError. -/
def alookup {α β : Type} [DecidableEq α] : List (α × β) → α → Option β
  | [], _ => none
  | (k, v) :: rest, key => if key = k then some v else alookup rest key

/-- Dict assignment `m[key] = v`: update in place when present, append when absent. -/
def setkey {α β : Type} [DecidableEq α] : List (α × β) → α → β → List (α × β)
  | [], key, v => [(key, v)]
  | (k, w) :: rest, key, v =>
    if key = k then (k, v) :: rest else (k, w) :: setkey rest key v

/-- Python `m.setdefault(key, dflt)` restricted to its effect on the dict. -/
def setdefault {α β : Type} [DecidableEq α] (m : List (α × β)) (key : α) (dflt : β) :
    List (α × β) :=
  if (alookup m key).isSome then m else m ++ [(key, dflt)]

/-! ## REST client (client.py)

An HTTP GET with `raise_for_status=True` is modelled as an oracle from the
request URL to an `HttpResult`: a parsed JSON body, a `ClientResponseError`
carrying the response status, or a `TimeoutError`/non-response `ClientError`
(the code always handles those two identically, so they share a constructor). -/

/-- Outcome of one HTTP GET issued by `session.get(..., raise_for_status=True)`. -/
inductive HttpResult (α : Type) where
  | ok : α → HttpResult α
  | httpError : Nat → HttpResult α
  | transport : HttpResult α
deriving DecidableEq, Repr

/-- Outcome of `BabyBuddyClient.async_get` as seen by its caller: the body, a
propagated `ClientResponseError`, a propagated `TimeoutError`/`ClientError`, or
a propagated `KeyError` from `self.endpoints[endpoint]`. -/
inductive Fetch (α : Type) where
  | ok : α → Fetch α
  | httpError : Nat → Fetch α
  | transport : Fetch α
  | keyError : String → Fetch α
deriving DecidableEq, Repr

/-- The client's own state: `self.url` (host:port) and `self.endpoints`,
the endpoint-name → URL map filled in by `async_connect`. -/
structure Client where
  url : String
  endpoints : List (String × String)
deriving DecidableEq, Repr

/-- URL construction inside `async_get`: no endpoint → the root listing URL
`{url}/api/`; otherwise `self.endpoints[endpoint]` (KeyError when absent)
with the entry suffix appended. Python's `if entry:` treats the empty string
as falsy, but appending "" yields the same URL, so both arms agree. -/
def getUrl (c : Client) (endpoint : Option String) (entry : Option String) :
    Except String String :=
  match endpoint with
  | none => .ok (c.url ++ "/api/")
  | some ep =>
    match alookup c.endpoints ep with
    | none => .error ep
    | some u =>
      match entry with
      | some s => .ok (u ++ s)
      | none => .ok u

/-- Embeds an HTTP outcome into the caller-visible outcome of `async_get`. -/
def liftHttp {α : Type} : HttpResult α → Fetch α
  | .ok a => .ok a
  | .httpError s => .httpError s
  | .transport => .transport

/-- `BabyBuddyClient.async_get`: build the URL, issue the GET, propagate
every error (there is no try/except in this method). -/
def async_get {α : Type} (server : String → HttpResult α) (c : Client)
    (endpoint : Option String) (entry : Option String) : Fetch α :=
  match getUrl c endpoint entry with
  | .error k => .keyError k
  | .ok u => liftHttp (server u)

/-- Outcome of `BabyBuddyClient.async_connect`: endpoints stored, or one of
the two typed errors the method raises. A `KeyError` cannot occur (the root
request does no endpoint lookup) but would propagate uncaught if it did. -/
inductive ConnectOutcome where
  | connected : ConnectOutcome
  | authorizationError : ConnectOutcome
  | connectError : ConnectOutcome
  | uncaughtKeyError : String → ConnectOutcome
deriving DecidableEq, Repr

/-- `BabyBuddyClient.async_connect`: `self.endpoints = await self.async_get()`;
`except ClientResponseError` (any status) → AuthorizationError;
`except (TimeoutError, ClientError)` → ConnectError. Returns the outcome and
the (possibly updated) client. -/
def async_connect (server : String → HttpResult (List (String × String)))
    (c : Client) : ConnectOutcome × Client :=
  match async_get server c none none with
  | .ok eps => (.connected, { c with endpoints := eps })
  | .httpError _ => (.authorizationError, c)
  | .transport => (.connectError, c)
  | .keyError k => (.uncaughtKeyError k, c)

/-- Outcome of one POST/PATCH/DELETE issued without `raise_for_status`: either
a response with some status code, or a raised `TimeoutError`/`ClientError`. -/
inductive ReqResult where
  | response : Nat → ReqResult
  | transport : ReqResult
deriving DecidableEq, Repr

/-- How a Post/Patch/Delete call ends for its caller. `returned` is a normal
return (any logging aside). `uncaughtNameError` is the `resp` local being read
after the request raised, so `resp` was never bound (Python UnboundLocalError,
a NameError, propagates). `uncaughtKeyError` is `self.endpoints[endpoint]`
failing inside the try block: KeyError is not among the caught classes. -/
inductive WriteOutcome where
  | returned : WriteOutcome
  | uncaughtNameError : WriteOutcome
  | uncaughtKeyError : String → WriteOutcome
deriving DecidableEq, Repr

/-- `BabyBuddyClient.async_post`: the request is guarded by
`except (TimeoutError, ClientError)` which only logs; afterwards
`if resp.status != HTTP_CREATED` logs the error body. When the request raised,
`resp` was never assigned and reading `resp.status` raises UnboundLocalError. -/
def async_post (send : String → List (String × String) → ReqResult) (c : Client)
    (endpoint : String) (data : List (String × String)) : WriteOutcome :=
  match alookup c.endpoints endpoint with
  | none => .uncaughtKeyError endpoint
  | some u =>
    match send u data with
    | .transport => .uncaughtNameError
    | .response _ => .returned

/-- `BabyBuddyClient.async_patch`: same shape as `async_post` against
`{endpoints[endpoint]}{entry}/`, expecting HTTP_OK; a non-OK status only logs. -/
def async_patch (send : String → List (String × String) → ReqResult) (c : Client)
    (endpoint : String) (entry : String) (data : List (String × String)) :
    WriteOutcome :=
  match alookup c.endpoints endpoint with
  | none => .uncaughtKeyError endpoint
  | some u =>
    match send (u ++ entry ++ "/") data with
    | .transport => .uncaughtNameError
    | .response _ => .returned

/-- `BabyBuddyClient.async_delete`: same shape against
`{endpoints[endpoint]}{entry}/`, expecting status 204; a mismatch only logs. -/
def async_delete (send : String → ReqResult) (c : Client)
    (endpoint : String) (entry : String) : WriteOutcome :=
  match alookup c.endpoints endpoint with
  | none => .uncaughtKeyError endpoint
  | some u =>
    match send (u ++ entry ++ "/") with
    | .transport => .uncaughtNameError
    | .response _ => .returned

/-! ## Polling coordinator (BabyBuddyCoordinator in the package init module)

`async_update` performs two kinds of GETs through the client: the children
list and, per child and per sensor type, the latest record. Within one
refresh pass each is a fixed outcome, so the pass is parameterised by an
environment giving the outcome of the children fetch and of every
(endpoint key, child id) fetch. -/

/-- One opaque record body (`data[0]`): a JSON object as key/value pairs. -/
abbrev Record := List (String × String)

/-- One child entry from the children-list results. `id` is the
remote-assigned integer identifier. -/
structure Child where
  id : Nat
  first_name : String
  last_name : String
deriving DecidableEq, Repr

/-- Parsed body of the children-list GET: `count` and `results`. -/
structure ChildrenList where
  count : Nat
  results : List Child
deriving DecidableEq, Repr

/-- Parsed body of a per-child endpoint GET (`?child={id}&limit=1`): `results`. -/
structure EndpointData where
  results : List Record
deriving DecidableEq, Repr

/-- Per-child portion of the snapshot: endpoint key → latest record. -/
abbrev ChildSnap := List (String × Record)

/-- The snapshot `child_data`: child id → (endpoint key → latest record). -/
abbrev Snapshot := List (Nat × ChildSnap)

/-- The fetch outcomes one refresh pass observes: the children-list GET and,
for each endpoint key and child id, the scoped `limit=1` GET. -/
structure PassEnv where
  fetchChildren : Fetch ChildrenList
  fetchEndpoint : String → Nat → Fetch EndpointData

/-- `data[0] if data else {}` on `endpoint_data[ATTR_RESULTS]`. -/
def latestRecord : List Record → Record
  | [] => []
  | r :: _ => r

/-- The inner `for endpoint in SENSOR_TYPES` loop for one child: on success
assign `child_data[child_id][endpoint.key]`; `ClientResponseError` and
`TimeoutError`/`ClientError` are caught and `continue`; a `KeyError` from the
client's endpoint map is uncaught and aborts the pass (`.error`). -/
def runEndpoints (fetchE : String → Nat → Fetch EndpointData) (cid : Nat) :
    List String → ChildSnap → Except String ChildSnap
  | [], cs => .ok cs
  | ek :: rest, cs =>
    match fetchE ek cid with
    | .ok ed => runEndpoints fetchE cid rest (setkey cs ek (latestRecord ed.results))
    | .httpError _ => runEndpoints fetchE cid rest cs
    | .transport => runEndpoints fetchE cid rest cs
    | .keyError k => .error k

/-- The outer `for child in children_list[ATTR_RESULTS]` loop: append unseen
ids to `self.child_ids`, `child_data.setdefault(child_id, {})`, then run the
endpoint loop on that child's inner dict. Returns the ids list as mutated so
far even when an uncaught KeyError aborts the pass, because `self.child_ids`
is coordinator state mutated in place. -/
def runChildren (fetchE : String → Nat → Fetch EndpointData)
    (sensorTypes : List String) :
    List Child → List Nat → Snapshot → List Nat × Except String Snapshot
  | [], ids, snap => (ids, .ok snap)
  | c :: rest, ids, snap =>
    let ids1 := if c.id ∈ ids then ids else ids ++ [c.id]
    let snap1 := setdefault snap c.id []
    match runEndpoints fetchE c.id sensorTypes ((alookup snap1 c.id).getD []) with
    | .error k => (ids1, .error k)
    | .ok inner => runChildren fetchE sensorTypes rest ids1 (setkey snap1 c.id inner)

/-- How `async_update` ends: the returned pair
`(children_list[ATTR_RESULTS], child_data)`, a raised `ConfigEntryAuthFailed`,
a raised `UpdateFailed(err)` wrapping a transport error, a raised
`UpdateFailed(message)`, or an uncaught `KeyError`. -/
inductive UpdateOutcome where
  | ok : List Child → Snapshot → UpdateOutcome
  | configEntryAuthFailed : UpdateOutcome
  | updateFailedErr : UpdateOutcome
  | updateFailedMsg : String → UpdateOutcome
  | uncaughtKeyError : String → UpdateOutcome
deriving DecidableEq, Repr

/-- `BabyBuddyCoordinator.async_update`, given the pass environment, the keys
of the static SENSOR_TYPES table (declared in the integration's const module,
not under the client/coordinator sources; treated as an arbitrary list of
endpoint keys) and the current `self.child_ids` (annotated `list[str]` in the
code but in fact holding the integer ids appended from `child[ATTR_ID]`).
Returns the outcome and the new `self.child_ids`.

The children fetch is guarded by `except ClientResponseError` (re-raise as
`ConfigEntryAuthFailed` only when the status is HTTP_FORBIDDEN; any other
status is swallowed, leaving `children_list = {}` so that the subsequent
`children_list[ATTR_COUNT]` raises an uncaught `KeyError("count")`) and by
`except (TimeoutError, ClientError)` → `UpdateFailed(err)`. A zero count
raises `UpdateFailed` with the no-children message. `child_data` starts as
`{}` on every pass. `async_remove_deleted_childs` (modelled separately) is
awaited before the return and does not affect the returned value. -/
def async_update (env : PassEnv) (sensorTypes : List String)
    (child_ids : List Nat) : UpdateOutcome × List Nat :=
  match env.fetchChildren with
  | .httpError s =>
    if s = HTTP_FORBIDDEN then (.configEntryAuthFailed, child_ids)
    else (.uncaughtKeyError ATTR_COUNT, child_ids)
  | .transport => (.updateFailedErr, child_ids)
  | .keyError k => (.uncaughtKeyError k, child_ids)
  | .ok cl =>
    if cl.count = 0 then (.updateFailedMsg NO_CHILDREN_MSG, child_ids)
    else
      match runChildren env.fetchEndpoint sensorTypes cl.results child_ids [] with
      | (ids1, .error k) => (.uncaughtKeyError k, ids1)
      | (ids1, .ok snap) => (.ok cl.results snap, ids1)

/-- Snapshot access `child_data[cid][ek]`, `none` in place of a KeyError. -/
def snapGet (snap : Snapshot) (cid : Nat) (ek : String) : Option Record :=
  (alookup snap cid).bind (fun cs => alookup cs ek)

/-- One device entry of this config entry in the host device registry.
`identFirst` is `next(iter(device.identifiers))`: a (domain, child id) pair. -/
structure Device where
  deviceId : String
  identFirst : String × Nat
deriving DecidableEq, Repr

/-- `BabyBuddyCoordinator.async_remove_deleted_childs`: its effect on the
registry entries of this config entry — every device whose identifier's
second component is not in `self.child_ids` is removed; the rest remain. -/
def async_remove_deleted_childs (child_ids : List Nat)
    (registry : List Device) : List Device :=
  registry.filter (fun d => decide (d.identFirst.2 ∈ child_ids))

/-- The devices `async_remove_deleted_childs` removes from the registry. -/
def removedDevices (child_ids : List Nat) (registry : List Device) :
    List Device :=
  registry.filter (fun d => decide (d.identFirst.2 ∉ child_ids))

/-- A sequence of refresh passes: each pass observes its own environment and
threads `self.child_ids` through. -/
def runPasses (st : List String) : List PassEnv → List Nat → List Nat
  | [], ids => ids
  | env :: rest, ids => runPasses st rest (async_update env st ids).2

/-! ## Concrete instances used to exercise the theorems -/

/-- The children list of the spec's worked example:
`{count: 1, results: [{id: 1, first_name: "A", last_name: "B"}]}`. -/
def clC1 : ChildrenList := ⟨1, [⟨1, "A", "B"⟩]⟩

/-- Pass environment of the worked example: the single endpoint-type GET
returns `{results: []}`. -/
def envC1 : PassEnv := ⟨.ok clC1, fun _ _ => .ok ⟨[]⟩⟩

/-- Pass environment in which every per-child endpoint fetch raises a
timeout/ClientError. -/
def envC2 : PassEnv := ⟨.ok ⟨1, [⟨1, "A", "B"⟩]⟩, fun _ _ => .transport⟩

/-- Pass environment whose children-list fetch gets a forbidden response. -/
def envC3auth : PassEnv := ⟨.httpError 403, fun _ _ => .transport⟩

/-- Pass environment whose children-list fetch times out. -/
def envC3trans : PassEnv := ⟨.transport, fun _ _ => .transport⟩

/-- Pass environment whose children-list fetch reports zero children. -/
def envC4 : PassEnv := ⟨.ok ⟨0, []⟩, fun _ _ => .transport⟩

/-- Pass environment with one child and all endpoint fetches succeeding. -/
def envC8 : PassEnv := ⟨.ok ⟨1, [⟨1, "A", "B"⟩]⟩, fun _ _ => .ok ⟨[]⟩⟩

/-- Pass environment whose children-list fetch gets a 500 response. -/
def envC10 : PassEnv := ⟨.httpError 500, fun _ _ => .ok ⟨[]⟩⟩

/-- A server whose root listing request fails with a 500 response. -/
def serverC5 : String → HttpResult (List (String × String)) := fun _ => .httpError 500

/-- A freshly constructed client (endpoint map still empty). -/
def clientC5 : Client := ⟨"http://h:8000", []⟩

/-- A session whose POST/PATCH requests all raise a timeout/ClientError. -/
def sendC6 : String → List (String × String) → ReqResult := fun _ _ => .transport

/-- A client whose endpoint map knows the children endpoint. -/
def clientC6 : Client := ⟨"http://h:8000", [("children", "http://h:8000/api/children/")]⟩

/-- A root listing exposing the children endpoint URL. -/
def rootC7 : String → HttpResult (List (String × String)) := fun u =>
  if u = "http://h:8000/api/" then .ok [("children", "http://h:8000/api/children/")]
  else .transport

/-- A freshly constructed client for the round-trip check. -/
def clientC7 : Client := ⟨"http://h:8000", []⟩

/-- A server answering only the exact suffixed children URL. -/
def serverC7 : String → HttpResult ChildrenList := fun u =>
  if u = "http://h:8000/api/children/?limit=1" then .ok ⟨0, []⟩ else .transport

/-! ## Lemmas about the dict operations -/

theorem alookup_setkey_self {α β : Type} [DecidableEq α]
    (m : List (α × β)) (k : α) (v : β) : alookup (setkey m k v) k = some v := by
  induction m with
  | nil => simp [setkey, alookup]
  | cons p rest ih =>
    obtain ⟨k0, w⟩ := p
    by_cases h : k = k0
    · subst h; simp [setkey, alookup]
    · simp [setkey, alookup, h, ih]

theorem alookup_setkey_ne {α β : Type} [DecidableEq α]
    (m : List (α × β)) (k k' : α) (v : β) (h : k' ≠ k) :
    alookup (setkey m k v) k' = alookup m k' := by
  induction m with
  | nil => simp [setkey, alookup, h]
  | cons p rest ih =>
    obtain ⟨k0, w⟩ := p
    by_cases hk : k = k0
    · subst hk; simp [setkey, alookup, h]
    · by_cases hk' : k' = k0
      · subst hk'; simp [setkey, alookup, hk]
      · simp [setkey, alookup, hk, hk', ih]

theorem alookup_append_right {α β : Type} [DecidableEq α]
    (m m' : List (α × β)) (k : α) (h : alookup m k = none) :
    alookup (m ++ m') k = alookup m' k := by
  induction m with
  | nil => simp
  | cons p rest ih =>
    obtain ⟨k0, w⟩ := p
    by_cases hk : k = k0
    · subst hk; simp [alookup] at h
    · simp [alookup, hk] at h ⊢
      exact ih h

theorem alookup_append_left {α β : Type} [DecidableEq α]
    (m m' : List (α × β)) (k : α) (v : β) (h : alookup m k = some v) :
    alookup (m ++ m') k = some v := by
  induction m with
  | nil => simp [alookup] at h
  | cons p rest ih =>
    obtain ⟨k0, w⟩ := p
    by_cases hk : k = k0
    · subst hk; simp [alookup] at h ⊢; exact h
    · simp [alookup, hk] at h ⊢
      exact ih h

theorem alookup_setdefault_self {α β : Type} [DecidableEq α]
    (m : List (α × β)) (k : α) (d : β) :
    alookup (setdefault m k d) k = some ((alookup m k).getD d) := by
  unfold setdefault
  by_cases h : (alookup m k).isSome
  · obtain ⟨v, hv⟩ := Option.isSome_iff_exists.mp h
    simp [h, hv]
  · have hn : alookup m k = none := Option.not_isSome_iff_eq_none.mp h
    rw [if_neg h, alookup_append_right m _ k hn, hn]
    simp [alookup]

theorem alookup_setdefault_ne {α β : Type} [DecidableEq α]
    (m : List (α × β)) (k k' : α) (d : β) (h : k' ≠ k) :
    alookup (setdefault m k d) k' = alookup m k' := by
  unfold setdefault
  by_cases hs : (alookup m k).isSome
  · simp [hs]
  · rw [if_neg hs]
    cases hv : alookup m k' with
    | none => rw [alookup_append_right m _ k' hv]; simp [alookup, h]
    | some v => exact alookup_append_left m _ k' v hv

theorem alookup_setdefault_isSome {α β : Type} [DecidableEq α]
    (m : List (α × β)) (k k' : α) (d : β) :
    (alookup (setdefault m k d) k').isSome ↔ (alookup m k').isSome ∨ k' = k := by
  by_cases h : k' = k
  · subst h
    simp [alookup_setdefault_self]
  · simp [alookup_setdefault_ne m k k' d h, h]

theorem alookup_setkey_isSome {α β : Type} [DecidableEq α]
    (m : List (α × β)) (k k' : α) (v : β) :
    (alookup (setkey m k v) k').isSome ↔ (alookup m k').isSome ∨ k' = k := by
  by_cases h : k' = k
  · subst h
    simp [alookup_setkey_self]
  · simp [alookup_setkey_ne m k k' v h, h]

/-! ## Characterisation of the refresh-pass loops -/

theorem runEndpoints_ok_of_all_ok (fetchE : String → Nat → Fetch EndpointData)
    (cid : Nat) (st : List String) (cs : ChildSnap)
    (h : ∀ ek ∈ st, ∃ d, fetchE ek cid = .ok d) :
    ∃ cs', runEndpoints fetchE cid st cs = .ok cs' := by
  induction st generalizing cs with
  | nil => exact ⟨cs, rfl⟩
  | cons ek0 rest ih =>
    obtain ⟨d, hd⟩ := h ek0 (List.mem_cons_self ek0 rest)
    have hrest : ∀ ek ∈ rest, ∃ d, fetchE ek cid = .ok d :=
      fun ek hek => h ek (List.mem_cons_of_mem ek0 hek)
    simp only [runEndpoints, hd]
    exact ih _ hrest

theorem runEndpoints_frame (fetchE : String → Nat → Fetch EndpointData)
    (cid : Nat) (st : List String) (cs cs' : ChildSnap)
    (h : runEndpoints fetchE cid st cs = .ok cs')
    (ek : String) (hek : ek ∉ st) : alookup cs' ek = alookup cs ek := by
  induction st generalizing cs with
  | nil =>
    simp only [runEndpoints] at h
    cases h; rfl
  | cons ek0 rest ih =>
    have hne : ek ≠ ek0 := fun he => hek (he ▸ List.mem_cons_self ek0 rest)
    have hrest : ek ∉ rest := fun he => hek (List.mem_cons_of_mem ek0 he)
    simp only [runEndpoints] at h
    cases hfe : fetchE ek0 cid with
    | ok d =>
      rw [hfe] at h
      rw [ih _ h hrest, alookup_setkey_ne _ _ _ _ hne]
    | httpError s => rw [hfe] at h; exact ih _ h hrest
    | transport => rw [hfe] at h; exact ih _ h hrest
    | keyError k => rw [hfe] at h; cases h

theorem runEndpoints_value (fetchE : String → Nat → Fetch EndpointData)
    (cid : Nat) (st : List String) (cs cs' : ChildSnap)
    (h : runEndpoints fetchE cid st cs = .ok cs')
    (ek : String) (hek : ek ∈ st) (d : EndpointData) (hd : fetchE ek cid = .ok d) :
    alookup cs' ek = some (latestRecord d.results) := by
  induction st generalizing cs with
  | nil => cases hek
  | cons ek0 rest ih =>
    simp only [runEndpoints] at h
    by_cases hmem : ek ∈ rest
    · cases hfe : fetchE ek0 cid with
      | ok d0 => rw [hfe] at h; exact ih _ h hmem
      | httpError s => rw [hfe] at h; exact ih _ h hmem
      | transport => rw [hfe] at h; exact ih _ h hmem
      | keyError k => rw [hfe] at h; cases h
    · have heq : ek = ek0 := by
        rcases List.mem_cons.mp hek with h1 | h1
        · exact h1
        · exact absurd h1 hmem
      subst heq
      rw [hd] at h
      rw [runEndpoints_frame fetchE cid rest _ _ h ek hmem, alookup_setkey_self]

theorem runEndpoints_absent (fetchE : String → Nat → Fetch EndpointData)
    (cid : Nat) (st : List String) (cs cs' : ChildSnap)
    (h : runEndpoints fetchE cid st cs = .ok cs')
    (ek : String) (hfail : ∀ d, fetchE ek cid ≠ .ok d)
    (habs : alookup cs ek = none) : alookup cs' ek = none := by
  induction st generalizing cs with
  | nil =>
    simp only [runEndpoints] at h
    cases h; exact habs
  | cons ek0 rest ih =>
    simp only [runEndpoints] at h
    cases hfe : fetchE ek0 cid with
    | ok d0 =>
      rw [hfe] at h
      have hne : ek ≠ ek0 := fun he => hfail d0 (he ▸ hfe)
      exact ih _ h (by rw [alookup_setkey_ne _ _ _ _ hne]; exact habs)
    | httpError s => rw [hfe] at h; exact ih _ h habs
    | transport => rw [hfe] at h; exact ih _ h habs
    | keyError k => rw [hfe] at h; cases h

theorem runChildren_ids_mono (fE : String → Nat → Fetch EndpointData)
    (st : List String) (children : List Child) :
    ∀ ids snap, (∀ x ∈ ids, x ∈ (runChildren fE st children ids snap).1) ∧
      (∀ x ∈ (runChildren fE st children ids snap).1,
        x ∈ ids ∨ x ∈ children.map Child.id) := by
  induction children with
  | nil =>
    intro ids snap
    constructor
    · intro x hx; simpa [runChildren] using hx
    · intro x hx; exact Or.inl (by simpa [runChildren] using hx)
  | cons c rest ih =>
    intro ids snap
    have hsub : ∀ x ∈ ids, x ∈ (if c.id ∈ ids then ids else ids ++ [c.id]) := by
      intro x hx; by_cases hc : c.id ∈ ids <;> simp [hc, hx]
    have hsup : ∀ x ∈ (if c.id ∈ ids then ids else ids ++ [c.id]),
        x ∈ ids ∨ x = c.id := by
      intro x hx; by_cases hc : c.id ∈ ids <;> simp_all
    simp only [runChildren]
    split
    · constructor
      · intro x hx; exact hsub x hx
      · intro x hx
        rcases hsup x hx with h | h
        · exact Or.inl h
        · exact Or.inr (by simp [h])
    · constructor
      · intro x hx
        exact (ih _ _).1 x (hsub x hx)
      · intro x hx
        rcases (ih _ _).2 x hx with h | h
        · rcases hsup x h with h2 | h2
          · exact Or.inl h2
          · exact Or.inr (by simp [h2])
        · refine Or.inr ?_
          simp only [List.map_cons, List.mem_cons]
          exact Or.inr h
theorem runChildren_ok_of_all_ok (fE : String → Nat → Fetch EndpointData)
    (st : List String) (children : List Child) :
    ∀ ids snap, (∀ ek ∈ st, ∀ c ∈ children, ∃ d, fE ek c.id = .ok d) →
      ∃ ids1 snap1, runChildren fE st children ids snap = (ids1, .ok snap1) := by
  induction children with
  | nil => intro ids snap _; exact ⟨ids, snap, rfl⟩
  | cons c0 rest ih =>
    intro ids snap h
    obtain ⟨inner, hinner⟩ := runEndpoints_ok_of_all_ok fE c0.id st
      ((alookup (setdefault snap c0.id []) c0.id).getD [])
      (fun ek hek => h ek hek c0 (List.mem_cons_self c0 rest))
    obtain ⟨ids1, snap1, hr⟩ := ih _ _
      (fun ek hek c hc => h ek hek c (List.mem_cons_of_mem c0 hc))
    refine ⟨ids1, snap1, ?_⟩
    simp only [runChildren, hinner]
    exact hr

theorem runChildren_keys (fE : String → Nat → Fetch EndpointData)
    (st : List String) (children : List Child) :
    ∀ ids snap ids1 snap1, runChildren fE st children ids snap = (ids1, .ok snap1) →
      ∀ k, (alookup snap1 k).isSome ↔
        (alookup snap k).isSome ∨ k ∈ children.map Child.id := by
  induction children with
  | nil =>
    intro ids snap ids1 snap1 h k
    simp only [runChildren, Prod.mk.injEq, Except.ok.injEq] at h
    simp [← h.2]
  | cons c rest ih =>
    intro ids snap ids1 snap1 h k
    simp only [runChildren] at h
    split at h
    · simp at h
    · rename_i inner heq
      rw [ih _ _ _ _ h k, alookup_setkey_isSome, alookup_setdefault_isSome]
      simp only [List.map_cons, List.mem_cons]
      tauto

theorem runChildren_frame (fE : String → Nat → Fetch EndpointData)
    (st : List String) (children : List Child) :
    ∀ ids snap ids1 snap1, runChildren fE st children ids snap = (ids1, .ok snap1) →
      ∀ k, k ∉ children.map Child.id → alookup snap1 k = alookup snap k := by
  induction children with
  | nil =>
    intro ids snap ids1 snap1 h k _
    simp only [runChildren, Prod.mk.injEq, Except.ok.injEq] at h
    rw [h.2]
  | cons c rest ih =>
    intro ids snap ids1 snap1 h k hk
    have hne : k ≠ c.id := by
      intro he; exact hk (by simp [he])
    have hrest : k ∉ rest.map Child.id := by
      intro he; exact hk (by simp only [List.map_cons, List.mem_cons]; exact Or.inr he)
    simp only [runChildren] at h
    split at h
    · simp at h
    · rename_i inner heq
      rw [ih _ _ _ _ h k hrest, alookup_setkey_ne _ _ _ _ hne,
        alookup_setdefault_ne _ _ _ _ hne]

theorem runChildren_value (fE : String → Nat → Fetch EndpointData)
    (st : List String) (children : List Child) :
    ∀ ids snap ids1 snap1, runChildren fE st children ids snap = (ids1, .ok snap1) →
      ∀ c ∈ children, ∀ ek ∈ st, ∀ d, fE ek c.id = .ok d →
        snapGet snap1 c.id ek = some (latestRecord d.results) := by
  induction children with
  | nil => intro ids snap ids1 snap1 h c hc; cases hc
  | cons c0 rest ih =>
    intro ids snap ids1 snap1 h c hc ek hek d hd
    simp only [runChildren] at h
    split at h
    · simp at h
    · rename_i inner heq
      by_cases hmem : c.id ∈ rest.map Child.id
      · obtain ⟨c', hc', hcid⟩ := List.mem_map.mp hmem
        have := ih _ _ _ _ h c' hc' ek hek d (by rw [hcid]; exact hd)
        rwa [hcid] at this
      · have hcc : c = c0 := by
          rcases List.mem_cons.mp hc with h1 | h1
          · exact h1
          · exact absurd (List.mem_map.mpr ⟨c, h1, rfl⟩) hmem
        subst hcc
        have houter : alookup snap1 c.id =
            alookup (setkey (setdefault snap c.id []) c.id inner) c.id :=
          runChildren_frame fE st rest _ _ _ _ h c.id hmem
        rw [snapGet, houter, alookup_setkey_self]
        simpa using runEndpoints_value fE c.id st _ _ heq ek hek d hd

theorem runChildren_absent (fE : String → Nat → Fetch EndpointData)
    (st : List String) (children : List Child) :
    ∀ ids snap ids1 snap1, runChildren fE st children ids snap = (ids1, .ok snap1) →
      ∀ cid ek, (∀ d, fE ek cid ≠ .ok d) → snapGet snap cid ek = none →
        snapGet snap1 cid ek = none := by
  induction children with
  | nil =>
    intro ids snap ids1 snap1 h cid ek _ habs
    simp only [runChildren, Prod.mk.injEq, Except.ok.injEq] at h
    rw [← h.2]; exact habs
  | cons c0 rest ih =>
    intro ids snap ids1 snap1 h cid ek hfail habs
    simp only [runChildren] at h
    split at h
    · simp at h
    · rename_i inner heq
      by_cases hcid : c0.id = cid
      · subst hcid
        have hinner0 : alookup (setdefault snap c0.id []) c0.id =
            some ((alookup snap c0.id).getD []) := alookup_setdefault_self _ _ _
        have habs0 : alookup ((alookup (setdefault snap c0.id []) c0.id).getD []) ek
            = none := by
          rw [hinner0]
          cases hv : alookup snap c0.id with
          | none => simp [alookup]
          | some cs =>
            rw [snapGet, hv] at habs
            simpa using habs
        have hinner : alookup inner ek = none :=
          runEndpoints_absent fE c0.id st _ _ heq ek hfail habs0
        refine ih _ _ _ _ h c0.id ek hfail ?_
        rw [snapGet, alookup_setkey_self]
        simpa using hinner
      · have hne : cid ≠ c0.id := fun he => hcid he.symm
        refine ih _ _ _ _ h cid ek hfail ?_
        rw [snapGet, alookup_setkey_ne _ _ _ _ hne, alookup_setdefault_ne _ _ _ _ hne]
        exact habs
/-! ## The claims -/

/-- C1: for every refresh pass whose children-list fetch returns a non-empty
(consistent) list and whose per-child/endpoint fetches all succeed,
async_update returns a snapshot whose key set equals exactly the set of
returned child identifiers, and a child/endpoint pair whose fetch returned an
empty results list is mapped to an empty record. -/
theorem async_update_snapshot_key_set (env : PassEnv) (st : List String)
    (ids : List Nat) (cl : ChildrenList)
    (hc : env.fetchChildren = .ok cl)
    (hcount : cl.count = cl.results.length)
    (hne : cl.results ≠ [])
    (hok : ∀ ek ∈ st, ∀ c ∈ cl.results, ∃ d, env.fetchEndpoint ek c.id = .ok d) :
    ∃ snap ids1, async_update env st ids = (.ok cl.results snap, ids1)
      ∧ (∀ k, (alookup snap k).isSome ↔ k ∈ cl.results.map Child.id)
      ∧ (∀ c ∈ cl.results, ∀ ek ∈ st, ∀ d, env.fetchEndpoint ek c.id = .ok d →
          d.results = [] → snapGet snap c.id ek = some []) := by
  have hcount0 : ¬cl.count = 0 := by
    rw [hcount]
    intro h0
    exact hne (List.length_eq_zero.mp h0)
  obtain ⟨ids1, snap, hrun⟩ :=
    runChildren_ok_of_all_ok env.fetchEndpoint st cl.results ids [] hok
  refine ⟨snap, ids1, ?_, ?_, ?_⟩
  · simp only [async_update, hc, if_neg hcount0, hrun]
  · intro k
    have hk := runChildren_keys env.fetchEndpoint st cl.results ids [] ids1 snap hrun k
    simpa [alookup] using hk
  · intro c hcmem ek hek d hd hres
    have hv := runChildren_value env.fetchEndpoint st cl.results ids [] ids1 snap
      hrun c hcmem ek hek d hd
    rw [hres] at hv
    simpa [latestRecord] using hv

/-- Witness for C1, at the spec's worked example: one child of id 1, a single
endpoint-type "feeding" returning no results; the snapshot is
`{1: {"feeding": {}}}`. -/
theorem async_update_snapshot_key_set_witness :
    (∃ snap ids1, async_update envC1 ["feeding"] [] = (.ok clC1.results snap, ids1)
      ∧ (∀ k, (alookup snap k).isSome ↔ k ∈ clC1.results.map Child.id)
      ∧ (∀ c ∈ clC1.results, ∀ ek ∈ ["feeding"], ∀ d,
          envC1.fetchEndpoint ek c.id = .ok d → d.results = [] →
          snapGet snap c.id ek = some []))
    ∧ async_update envC1 ["feeding"] [] =
        (.ok clC1.results [(1, [("feeding", [])])], [1]) :=
  ⟨async_update_snapshot_key_set envC1 ["feeding"] [] clC1 rfl rfl (by decide)
    (fun _ _ _ _ => ⟨⟨[]⟩, rfl⟩), rfl⟩

/-- C2: whenever a refresh pass returns a snapshot, any child/endpoint pair
whose fetch failed (ClientResponseError or timeout/ClientError) is absent from
it — the pass builds the snapshot from an empty mapping, so nothing stale or
erroneous can appear. -/
theorem async_update_failed_fetch_absent (env : PassEnv) (st : List String)
    (ids ids1 : List Nat) (res : List Child) (snap : Snapshot)
    (h : async_update env st ids = (.ok res snap, ids1))
    (cid : Nat) (ek : String)
    (hfail : env.fetchEndpoint ek cid = .transport ∨
      ∃ s, env.fetchEndpoint ek cid = .httpError s) :
    snapGet snap cid ek = none := by
  have hfail' : ∀ d, env.fetchEndpoint ek cid ≠ .ok d := by
    intro d hd
    rcases hfail with h1 | ⟨s, h1⟩ <;> rw [hd] at h1 <;> cases h1
  cases hc : env.fetchChildren with
  | ok cl =>
    simp only [async_update, hc] at h
    by_cases h0 : cl.count = 0
    · rw [if_pos h0] at h
      simp at h
    · rw [if_neg h0] at h
      split at h
      · simp at h
      · rename_i ids2 snap2 heq
        simp only [Prod.mk.injEq, UpdateOutcome.ok.injEq] at h
        obtain ⟨⟨_, hsnap⟩, _⟩ := h
        rw [← hsnap]
        exact runChildren_absent env.fetchEndpoint st cl.results ids [] ids2 snap2
          heq cid ek hfail' rfl
  | httpError s =>
    simp only [async_update, hc] at h
    by_cases hs : s = HTTP_FORBIDDEN
    · rw [if_pos hs] at h; simp at h
    · rw [if_neg hs] at h; simp at h
  | transport => simp only [async_update, hc] at h; simp at h
  | keyError k => simp only [async_update, hc] at h; simp at h

/-- Witness for C2: the child is present with an empty inner record map, and
the failed "feeding" slot is absent. -/
theorem async_update_failed_fetch_absent_witness :
    async_update envC2 ["feeding"] [] = (.ok [⟨1, "A", "B"⟩] [(1, [])], [1])
    ∧ snapGet [(1, [])] 1 "feeding" = none :=
  ⟨rfl, async_update_failed_fetch_absent envC2 ["feeding"] [] [1] [⟨1, "A", "B"⟩]
    [(1, [])] rfl 1 "feeding" (Or.inl rfl)⟩

/-- C3: a forbidden response on the children-list fetch makes async_update end
in ConfigEntryAuthFailed, while a timeout or other transport error makes it
end in the generic UpdateFailed — two distinct outcomes. -/
theorem async_update_forbidden_auth_failed (env env2 : PassEnv)
    (st st2 : List String) (ids ids2 : List Nat)
    (hforb : env.fetchChildren = .httpError HTTP_FORBIDDEN)
    (htrans : env2.fetchChildren = .transport) :
    async_update env st ids = (.configEntryAuthFailed, ids)
    ∧ async_update env2 st2 ids2 = (.updateFailedErr, ids2)
    ∧ UpdateOutcome.configEntryAuthFailed ≠ UpdateOutcome.updateFailedErr := by
  refine ⟨?_, ?_, by decide⟩
  · simp [async_update, hforb]
  · simp [async_update, htrans]

/-- Witness for C3, at a forbidden (403) response and at a timeout. -/
theorem async_update_forbidden_auth_failed_witness :
    async_update envC3auth ["feeding"] [] = (.configEntryAuthFailed, [])
    ∧ async_update envC3trans ["feeding"] [] = (.updateFailedErr, [])
    ∧ UpdateOutcome.configEntryAuthFailed ≠ UpdateOutcome.updateFailedErr :=
  async_update_forbidden_auth_failed envC3auth envC3trans ["feeding"] ["feeding"]
    [] [] rfl rfl

/-- C4: a successful children-list fetch reporting count == 0 fails the pass
with the specific no-children UpdateFailed, distinguishable from the
UpdateFailed that wraps a transport error. -/
theorem async_update_no_children (env : PassEnv) (st : List String)
    (ids : List Nat) (cl : ChildrenList)
    (hc : env.fetchChildren = .ok cl) (h0 : cl.count = 0) :
    async_update env st ids = (.updateFailedMsg NO_CHILDREN_MSG, ids)
    ∧ UpdateOutcome.updateFailedMsg NO_CHILDREN_MSG ≠ UpdateOutcome.updateFailedErr := by
  refine ⟨?_, by decide⟩
  simp [async_update, hc, h0]

/-- Witness for C4, at a children list with count 0. -/
theorem async_update_no_children_witness :
    async_update envC4 ["feeding"] [] = (.updateFailedMsg NO_CHILDREN_MSG, [])
    ∧ UpdateOutcome.updateFailedMsg NO_CHILDREN_MSG ≠ UpdateOutcome.updateFailedErr :=
  async_update_no_children envC4 ["feeding"] [] ⟨0, []⟩ rfl rfl

/-- C5 counterexample: the claim says a non-auth HTTP error response such as a
500 is surfaced by Connect as ConnectFailure, not AuthorizationFailure; on a
root request answered with status 500 the code raises AuthorizationError. -/
theorem async_connect_500_counterexample :
    serverC5 (clientC5.url ++ "/api/") = .httpError 500
    ∧ (500 : Nat) ≠ HTTP_FORBIDDEN
    ∧ (async_connect serverC5 clientC5).1 = .authorizationError
    ∧ ConnectOutcome.authorizationError ≠ ConnectOutcome.connectError :=
  ⟨rfl, by decide, rfl, by decide⟩

/-- C5 amended: Connect fails with AuthorizationFailure whenever the root
request gets an HTTP error response of any status (forbidden, unauthorized or
otherwise), fails with ConnectFailure on timeout or non-response transport
errors, and stores the listing as the endpoint map on success. -/
theorem async_connect_error_mapping
    (root : String → HttpResult (List (String × String))) (c : Client) :
    (∀ s, root (c.url ++ "/api/") = .httpError s →
      (async_connect root c).1 = .authorizationError)
    ∧ (root (c.url ++ "/api/") = .transport →
      (async_connect root c).1 = .connectError)
    ∧ (∀ eps, root (c.url ++ "/api/") = .ok eps →
      async_connect root c = (.connected, { c with endpoints := eps })) := by
  refine ⟨fun s hs => ?_, fun ht => ?_, fun eps he => ?_⟩
  · simp [async_connect, async_get, getUrl, liftHttp, hs]
  · simp [async_connect, async_get, getUrl, liftHttp, ht]
  · simp [async_connect, async_get, getUrl, liftHttp, he]

/-- Witness for the amended C5, at the 500-answering server. -/
theorem async_connect_error_mapping_witness :
    (async_connect serverC5 clientC5).1 = .authorizationError :=
  (async_connect_error_mapping serverC5 clientC5).1 500 rfl

/-- C6: the fire-and-forget contract breaks on the transport path. When the
POST/PATCH/DELETE request raises a timeout/ClientError, the handler only logs
it, but the following status check reads the never-assigned `resp` local, so
an UnboundLocalError propagates instead of a normal return. A response with an
unexpected status, by contrast, only logs and returns normally. -/
theorem async_write_transport_unbound_resp :
    async_post sendC6 clientC6 "children" [] = .uncaughtNameError
    ∧ async_patch sendC6 clientC6 "children" "1" [] = .uncaughtNameError
    ∧ async_delete (fun _ => .transport) clientC6 "children" "1" = .uncaughtNameError
    ∧ WriteOutcome.uncaughtNameError ≠ WriteOutcome.returned
    ∧ async_post (fun _ _ => .response 500) clientC6 "children" [] = .returned
    ∧ async_patch (fun _ _ => .response 500) clientC6 "children" "1" [] = .returned
    ∧ async_delete (fun _ => .response 500) clientC6 "children" "1" = .returned :=
  ⟨rfl, rfl, rfl, by decide, rfl, rfl, rfl⟩

/-- C7: after Connect stores the root listing as the endpoint map, a Get for a
listed endpoint hits exactly the stored URL, unchanged except for the
appended query suffix when one is supplied. -/
theorem async_connect_get_roundtrip {α : Type}
    (root : String → HttpResult (List (String × String)))
    (server : String → HttpResult α) (c : Client)
    (eps : List (String × String)) (e u suffix : String)
    (hroot : root (c.url ++ "/api/") = .ok eps)
    (hlook : alookup eps e = some u) :
    async_connect root c = (.connected, { c with endpoints := eps })
    ∧ async_get server { c with endpoints := eps } (some e) (some suffix) =
        liftHttp (server (u ++ suffix))
    ∧ async_get server { c with endpoints := eps } (some e) none =
        liftHttp (server u) := by
  refine ⟨?_, ?_, ?_⟩
  · simp [async_connect, async_get, getUrl, liftHttp, hroot]
  · simp [async_get, getUrl, hlook]
  · simp [async_get, getUrl, hlook]

/-- Witness for C7: connecting against a concrete root listing, then getting
the children endpoint with the limit query suffix. -/
theorem async_connect_get_roundtrip_witness :
    async_connect rootC7 clientC7 =
      (.connected, { clientC7 with
        endpoints := [("children", "http://h:8000/api/children/")] })
    ∧ async_get serverC7 { clientC7 with
        endpoints := [("children", "http://h:8000/api/children/")] }
        (some "children") (some "?limit=1") =
      liftHttp (serverC7 ("http://h:8000/api/children/" ++ "?limit=1"))
    ∧ async_get serverC7 { clientC7 with
        endpoints := [("children", "http://h:8000/api/children/")] }
        (some "children") none =
      liftHttp (serverC7 "http://h:8000/api/children/") :=
  async_connect_get_roundtrip rootC7 serverC7 clientC7
    [("children", "http://h:8000/api/children/")] "children"
    "http://h:8000/api/children/" "?limit=1" rfl rfl

theorem child_ids_grow (env : PassEnv) (st : List String) (ids : List Nat) :
    (∀ x ∈ ids, x ∈ (async_update env st ids).2)
    ∧ (∀ x ∈ (async_update env st ids).2,
        x ∈ ids ∨ ∃ cl, env.fetchChildren = .ok cl ∧ x ∈ cl.results.map Child.id) := by
  cases hc : env.fetchChildren with
  | ok cl =>
    simp only [async_update, hc]
    by_cases h0 : cl.count = 0
    · rw [if_pos h0]
      exact ⟨fun x hx => hx, fun x hx => Or.inl hx⟩
    · rw [if_neg h0]
      have hm := runChildren_ids_mono env.fetchEndpoint st cl.results ids []
      split
      · rename_i ids2 k heq
        have h1 : (runChildren env.fetchEndpoint st cl.results ids []).1 = ids2 := by
          rw [heq]
        rw [h1] at hm
        exact ⟨hm.1, fun x hx => (hm.2 x hx).imp id (fun h2 => ⟨cl, rfl, h2⟩)⟩
      · rename_i ids2 snap2 heq
        have h1 : (runChildren env.fetchEndpoint st cl.results ids []).1 = ids2 := by
          rw [heq]
        rw [h1] at hm
        exact ⟨hm.1, fun x hx => (hm.2 x hx).imp id (fun h2 => ⟨cl, rfl, h2⟩)⟩
  | httpError s =>
    simp only [async_update, hc]
    by_cases hs : s = HTTP_FORBIDDEN <;> simp [hs]
  | transport => simp [async_update, hc]
  | keyError k => simp [async_update, hc]

/-- C8: the known-identifiers list is monotonically non-decreasing — within
one refresh pass every id present before is present after and every new id
comes from that pass's children list, hence across any sequence of passes an
id once present is never removed. -/
theorem async_update_child_ids_monotone (env : PassEnv) (st : List String)
    (ids : List Nat) (envs : List PassEnv) :
    (∀ x ∈ ids, x ∈ (async_update env st ids).2)
    ∧ (∀ x ∈ (async_update env st ids).2,
        x ∈ ids ∨ ∃ cl, env.fetchChildren = .ok cl ∧ x ∈ cl.results.map Child.id)
    ∧ (∀ x ∈ ids, x ∈ runPasses st envs ids) := by
  refine ⟨(child_ids_grow env st ids).1, (child_ids_grow env st ids).2, ?_⟩
  induction envs generalizing ids with
  | nil => intro x hx; simpa [runPasses] using hx
  | cons e rest ih =>
    intro x hx
    exact ih _ x ((child_ids_grow e st ids).1 x hx)

/-- Witness for C8: an id known before is still known after one pass and after
a two-pass sequence. -/
theorem async_update_child_ids_monotone_witness :
    5 ∈ (async_update envC8 ["feeding"] [5]).2
    ∧ 5 ∈ runPasses ["feeding"] [envC8, envC3trans] [5] :=
  ⟨(async_update_child_ids_monotone envC8 ["feeding"] [5] []).1 5 (by decide),
    (async_update_child_ids_monotone envC8 ["feeding"] [5]
      [envC8, envC3trans]).2.2 5 (by decide)⟩

/-- C9: device reconciliation removes exactly the registry entries of this
config entry whose child identifier is not in the known-identifiers list, and
never one whose identifier is in it; the snapshot plays no part (the removal
predicate reads only the identifier and the ids list). -/
theorem remove_deleted_childs_exact (ids : List Nat) (registry : List Device) :
    (∀ d, d ∈ removedDevices ids registry ↔ d ∈ registry ∧ d.identFirst.2 ∉ ids)
    ∧ (∀ d, d ∈ registry → d.identFirst.2 ∈ ids → d ∉ removedDevices ids registry)
    ∧ (∀ d, d ∈ async_remove_deleted_childs ids registry ↔
        d ∈ registry ∧ d.identFirst.2 ∈ ids) := by
  refine ⟨fun d => ?_, fun d hd hin hrem => ?_, fun d => ?_⟩
  · simp [removedDevices, List.mem_filter]
  · simp [removedDevices, List.mem_filter] at hrem
    exact hrem.2 hin
  · simp [async_remove_deleted_childs, List.mem_filter]

/-- Witness for C9: with known ids `[1]`, the device of child 2 is removed and
the device of child 1 (whose pass data may well be empty) is kept. -/
theorem remove_deleted_childs_exact_witness :
    (⟨"dev-b", ("babybuddy", 2)⟩ : Device) ∈
      removedDevices [1] [⟨"dev-a", ("babybuddy", 1)⟩, ⟨"dev-b", ("babybuddy", 2)⟩]
    ∧ (⟨"dev-a", ("babybuddy", 1)⟩ : Device) ∉
      removedDevices [1] [⟨"dev-a", ("babybuddy", 1)⟩, ⟨"dev-b", ("babybuddy", 2)⟩] :=
  ⟨((remove_deleted_childs_exact [1]
      [⟨"dev-a", ("babybuddy", 1)⟩, ⟨"dev-b", ("babybuddy", 2)⟩]).1
      ⟨"dev-b", ("babybuddy", 2)⟩).mpr ⟨by decide, by decide⟩,
    (remove_deleted_childs_exact [1]
      [⟨"dev-a", ("babybuddy", 1)⟩, ⟨"dev-b", ("babybuddy", 2)⟩]).2.1
      ⟨"dev-a", ("babybuddy", 1)⟩ (by decide) (by decide)⟩

/-- C10: a children-list fetch failing with a non-forbidden HTTP error is
swallowed, the children list stays the empty dict, and reading its count key
raises an uncaught KeyError — the pass neither returns a snapshot nor ends in
the typed auth-failure or update-failure outcomes. -/
theorem async_update_nonforbidden_keyerror (env : PassEnv) (st : List String)
    (ids : List Nat) (s : Nat)
    (hc : env.fetchChildren = .httpError s) (hs : s ≠ HTTP_FORBIDDEN) :
    async_update env st ids = (.uncaughtKeyError ATTR_COUNT, ids)
    ∧ (∀ res snap, UpdateOutcome.uncaughtKeyError ATTR_COUNT ≠ .ok res snap)
    ∧ UpdateOutcome.uncaughtKeyError ATTR_COUNT ≠ .configEntryAuthFailed
    ∧ UpdateOutcome.uncaughtKeyError ATTR_COUNT ≠ .updateFailedErr
    ∧ UpdateOutcome.uncaughtKeyError ATTR_COUNT ≠ .updateFailedMsg NO_CHILDREN_MSG := by
  refine ⟨?_, fun res snap => by simp, by simp, by simp, by simp⟩
  simp [async_update, hc, hs]

/-- Witness for C10, at a 500 response on the children-list fetch. -/
theorem async_update_nonforbidden_keyerror_witness :
    async_update envC10 ["feeding"] [] = (.uncaughtKeyError ATTR_COUNT, []) :=
  (async_update_nonforbidden_keyerror envC10 ["feeding"] [] 500 rfl (by decide)).1

end BabyBuddy
